import Mathlib

/-
Verification of the form-outline diagnostic scripts.

This file gives a shallow embedding of the outline-inspection logic in
src/inspect_rpa_form_outline.py and of the series-wide scanning loop in
src/find_rpa_forms_with_outline.py, and settles the spec's testable
properties about them.

The protobuf message `reform_pb2.FormOutline` (external to the repository)
is embedded as a tree of terms, following the data model of the spec:
a `Term` carries `number`, `title`, `kind`, an optional `section` payload
(an ordered list of child terms), an optional `combo` payload, and a leaf
`field_ids` mapping.  Python protobuf equality (`==`) is deep structural
equality over all fields, embedded here by the boolean functions
`Term.beq` / `FormOutline.beq`, proved below to coincide with equality of
the embedded trees.  File access in the loader and the service lookups of
the scanner are represented by explicit function parameters returning
`Except`, a caught Python exception corresponding to an `Except.error`.
-/

/-- Kind of an outline term, embedding the `FormOutline.Term.Kind` protobuf
enum (the spec lists SECTION, COMBO, FIELD; the zero value is the
unspecified default). -/
inductive Kind where
  | KIND_UNSPECIFIED
  | FIELD
  | SECTION
  | COMBO
deriving DecidableEq

/-- Name of a kind value, embedding `FormOutline.Term.Kind.Name`. -/
def Kind.Name : Kind → String
  | .KIND_UNSPECIFIED => "KIND_UNSPECIFIED"
  | .FIELD => "FIELD"
  | .SECTION => "SECTION"
  | .COMBO => "COMBO"

/-- One node of an outline tree.  The protobuf field `section` is called
`sect` here because `section` is a Lean keyword; `sect`/`combo` are `none`
when the corresponding submessage is unset. -/
inductive Term where
  | mk (number : String) (title : String) (kind : Kind)
       (sect : Option (List Term)) (combo : Option (List Term))
       (field_ids : List (String × String))

def Term.number : Term → String
  | .mk n _ _ _ _ _ => n

def Term.title : Term → String
  | .mk _ t _ _ _ _ => t

def Term.kind : Term → Kind
  | .mk _ _ k _ _ _ => k

def Term.sect : Term → Option (List Term)
  | .mk _ _ _ s _ _ => s

def Term.combo : Term → Option (List Term)
  | .mk _ _ _ _ c _ => c

def Term.field_ids : Term → List (String × String)
  | .mk _ _ _ _ _ f => f

mutual

/-- Deep structural equality of two terms, as protobuf `==` computes it:
all fields, all nested terms, recursively, order-sensitive. -/
def Term.beq : Term → Term → Bool
  | .mk n1 t1 k1 s1 c1 f1, .mk n2 t2 k2 s2 c2 f2 =>
    n1 = n2 && t1 = t2 && k1 = k2 && optTermsBeq s1 s2 && optTermsBeq c1 c2 && f1 = f2

def optTermsBeq : Option (List Term) → Option (List Term) → Bool
  | none, none => true
  | some a, some b => termsBeq a b
  | _, _ => false

def termsBeq : List Term → List Term → Bool
  | [], [] => true
  | a :: as, b :: bs => Term.beq a b && termsBeq as bs
  | _, _ => false

end

/-- Embedding of the `reform_pb2.FormOutline` message: an ordered list of
top-level terms. -/
structure FormOutline where
  terms : List Term

/-- Protobuf `==` on whole outlines. -/
def FormOutline.beq (a b : FormOutline) : Bool :=
  termsBeq a.terms b.terms

/-- Prefix test on character lists (helper for the substring test). -/
def charsPref : List Char → List Char → Bool
  | [], _ => true
  | _ :: _, [] => false
  | a :: as, b :: bs => a = b && charsPref as bs

/-- Substring test on character lists (helper for the substring test). -/
def charsInf (needle : List Char) : List Char → Bool
  | [] => charsPref needle []
  | b :: bs => charsPref needle (b :: bs) || charsInf needle bs

/-- Embedding of the Python substring operator `needle in hay`. -/
def strContains (hay needle : String) : Bool :=
  charsInf needle.toList hay.toList

/-- Case-insensitive substring test, used only to state the spec's
"case-insensitive match" reading of the identifiable-term heuristic, for
comparison against the code's literal checks. -/
def strContainsCI (hay needle : String) : Bool :=
  charsInf (needle.toList.map Char.toLower) (hay.toList.map Char.toLower)

mutual

/-- Text rendering of a term.  Modelled from the spec: the script calls the
external protobuf library's `str()` (text format) on a sub-term to test it
for the substring "other3"; that serializer is not part of this repository.
Following protobuf text format, default-valued fields are omitted and
nested messages are rendered in braces, recursively. -/
def Term.strRepr : Term → String
  | .mk number title kind sct cmb fieldIds =>
    (if number = "" then "" else "number: \"" ++ number ++ "\"\n")
    ++ (if title = "" then "" else "title: \"" ++ title ++ "\"\n")
    ++ (if kind = .KIND_UNSPECIFIED then "" else "kind: " ++ kind.Name ++ "\n")
    ++ (match sct with
        | none => ""
        | some ts => "section \x7b\n" ++ termsStrRepr ts ++ "\x7d\n")
    ++ (match cmb with
        | none => ""
        | some ts => "combo \x7b\n" ++ termsStrRepr ts ++ "\x7d\n")
    ++ String.join (fieldIds.map (fun p =>
         "field_ids \x7b key: \"" ++ p.1 ++ "\" value: \"" ++ p.2 ++ "\" \x7d\n"))

def termsStrRepr : List Term → String
  | [] => ""
  | t :: ts => "terms \x7b\n" ++ Term.strRepr t ++ "\x7d\n" ++ termsStrRepr ts

end

/-- Result dictionary of `_compare_outlines`.  The term-count keys are
present (`some`) only on a NO_MATCH verdict, as in the source. -/
structure CompareResult where
  version : String
  «matches» : Bool
  status : String
  current_term_count : Option Nat
  version_term_count : Option Nat
deriving DecidableEq

/-- Embedding of `_compare_outlines` (src/inspect_rpa_form_outline.py,
lines 35-52): protobuf equality of the two outlines decides the verdict;
on NO_MATCH the top-level term counts of both sides are added (the source
guards each `len` with the list's truthiness, hence the `isEmpty` tests). -/
def compare_outlines (current : FormOutline) (version : String)
    (version_outline : FormOutline) : CompareResult :=
  if FormOutline.beq current version_outline then
    { version := version
      «matches» := true
      status := "MATCH"
      current_term_count := none
      version_term_count := none }
  else
    { version := version
      «matches» := false
      status := "NO_MATCH"
      current_term_count := some (if current.terms.isEmpty then 0 else current.terms.length)
      version_term_count := some (if version_outline.terms.isEmpty then 0 else version_outline.terms.length) }

/-- One entry of the `sample_terms` list built by `_get_outline_summary`. -/
structure SampleTerm where
  number : String
  title : String
  kind : String
deriving DecidableEq

/-- Summary dictionary returned by `_get_outline_summary`.  The
`identifiable_terms` key is absent (`none`) in the empty-outline branch of
the source, and present (`some`) otherwise. -/
structure OutlineSummary where
  term_count : Nat
  is_empty : Bool
  sample_terms : List SampleTerm
  identifiable_terms : Option (List String)
deriving DecidableEq

/-- Embedding of the `enumerate(outline.terms[:5])` sampling loop of
`_get_outline_summary` (lines 68-74): a term with an empty (falsy) title is
skipped; an empty `number` is replaced by the 1-based position `str(i+1)`. -/
def sampleTermsLoop : Nat → List Term → List SampleTerm
  | _, [] => []
  | i, t :: ts =>
    (if t.title ≠ "" then
      [{ number := if t.number ≠ "" then t.number else toString (i + 1)
         title := t.title
         kind := t.kind.Name }]
     else []) ++ sampleTermsLoop (i + 1) ts

/-- Embedding of the identifiable-terms loop of `_get_outline_summary`
(lines 77-84): a top-level title is kept when it has "Broker" or "broker"
as a substring; when the term's section payload is set and non-empty, each
sub-term whose title has "Broker" or "29" as a substring, or whose string
representation has "other3" as a substring, contributes its title prefixed
by "  └─ ". -/
def identifiableLoop : List Term → List String
  | [] => []
  | t :: ts =>
    (if strContains t.title "Broker" || strContains t.title "broker" then [t.title] else [])
    ++ (match t.sect with
        | some sts =>
          if sts.isEmpty then []
          else
            sts.filterMap (fun st =>
              if strContains st.title "Broker" || strContains st.title "29"
                  || strContains st.strRepr "other3" then
                some ("  └─ " ++ st.title)
              else none)
        | none => [])
    ++ identifiableLoop ts

/-- Embedding of `_get_outline_summary` (lines 55-91).  The argument is an
`Option` so that an absent outline (`None` / falsy input) is representable;
it takes the empty-summary branch, as does a present outline whose term
list is empty. -/
def get_outline_summary : Option FormOutline → OutlineSummary
  | none =>
    { term_count := 0
      is_empty := true
      sample_terms := []
      identifiable_terms := none }
  | some outline =>
    if outline.terms.isEmpty then
      { term_count := 0
        is_empty := true
        sample_terms := []
        identifiable_terms := none }
    else
      { term_count := outline.terms.length
        is_empty := false
        sample_terms := (sampleTermsLoop 0 (outline.terms.take 5)).take 5
        identifiable_terms := some ((identifiableLoop outline.terms).take 10) }

/-- Path of the reference document that backs an outline version, embedding
`OUTLINE_PATH_TEMPLATE.format(version)`. -/
def OUTLINE_PATH_TEMPLATE (version : String) : String :=
  "/code/web/flows/handlers/app/rpa/outline" ++ version ++ ".json"

/-- Embedding of `_load_outline_version` (lines 19-32).  The filesystem and
JSON/protobuf parsing pipeline of the `try` block is the explicit parameter
`fs`: `fs path = Except.error e` models any exception raised while opening
or parsing the document at `path`.  The second component collects the
`logger.error` messages.  Version "0" returns a fresh empty outline before
any file access is attempted; otherwise an error is caught, logged, and
turned into the absence marker `none` — no exception escapes. -/
def load_outline_version (fs : String → Except String FormOutline)
    (version : String) : Option FormOutline × List String :=
  if version = "0" then
    (some { terms := [] }, [])
  else
    match fs (OUTLINE_PATH_TEMPLATE version) with
    | .ok outline => (some outline, [])
    | .error e => (none, ["Failed to load outline version " ++ version ++ ": " ++ e])

/-- One row of the `documents_forms` query in the series scan, carrying the
columns the loop reads. -/
structure FormRow where
  id : String
  fill_config_id : String
  created_at : Nat
deriving DecidableEq

/-- Form entity as the scan loop reads it (only `state` is accessed). -/
structure Form where
  state : String
deriving DecidableEq

/-- Fill-config entity: owns zero-or-one outline. -/
structure FillConfig where
  form_outline : Option FormOutline

/-- Per-form record built by the series scan (`form_info` in the source).
The `sample_terms` key is added only for forms with outline data, hence the
`Option`. -/
structure FormInfo where
  form_id : String
  fill_config_id : String
  created_at : Nat
  is_default : Bool
  term_count : Nat
  state : String
  sample_terms : Option (List String)
deriving DecidableEq

/-- Service layer of the series scan: `FormService().get_multi([id])[0]`
and `FillConfigService().get_multi([id])[0]`, each of which may raise
(`Except.error`). -/
structure ScanServices where
  formSvc : String → Except String Form
  fillSvc : String → Except String FillConfig

/-- Outcome of one iteration of the scan loop: the row's record lands in
the with-outline partition, the without-outline partition, or the row is
skipped with an error log. -/
inductive RowOutcome where
  | withOutline (info : FormInfo)
  | withoutOutline (info : FormInfo)
  | failed (msg : String)
deriving DecidableEq

/-- Embedding of the body of the per-form loop of
src/find_rpa_forms_with_outline.py (lines 73-107): look up the form and its
fill config (either lookup may raise; the exception is caught and logged
and the row skipped), test the outline for a non-empty term list, and build
the per-form record. -/
def process_row (svc : ScanServices) (default_form_id : String)
    (row : FormRow) : RowOutcome :=
  match svc.formSvc row.id with
  | .error e => .failed ("Error processing form " ++ row.id ++ ": " ++ e)
  | .ok form =>
    match svc.fillSvc row.fill_config_id with
    | .error e => .failed ("Error processing form " ++ row.id ++ ": " ++ e)
    | .ok fill_config =>
      let info : FormInfo :=
        { form_id := row.id
          fill_config_id := row.fill_config_id
          created_at := row.created_at
          is_default := row.id = default_form_id
          term_count := 0
          state := form.state
          sample_terms := none }
      match fill_config.form_outline with
      | some o =>
        if o.terms.isEmpty then
          .withoutOutline info
        else
          .withOutline
            { info with
              term_count := o.terms.length
              sample_terms := some ((o.terms.take 3).filterMap
                (fun t => if t.title ≠ "" then some t.title else none)) }
      | none => .withoutOutline info

/-- Embedding of the series-scan loop itself: fold `process_row` over the
query rows in order, appending each record to its partition and each error
message to the log. -/
def scan_forms (svc : ScanServices) (default_form_id : String) :
    List FormRow → List FormInfo × List FormInfo × List String
  | [] => ([], [], [])
  | row :: rest =>
    let tail := scan_forms svc default_form_id rest
    match process_row svc default_form_id row with
    | .withOutline info => (info :: tail.1, tail.2.1, tail.2.2)
    | .withoutOutline info => (tail.1, info :: tail.2.1, tail.2.2)
    | .failed msg => (tail.1, tail.2.1, msg :: tail.2.2)

def pickWith : RowOutcome → Option FormInfo
  | .withOutline i => some i
  | _ => none

def pickWithout : RowOutcome → Option FormInfo
  | .withoutOutline i => some i
  | _ => none

def pickLog : RowOutcome → Option String
  | .failed m => some m
  | _ => none

/-- Top-level identifiable-term predicate as the code writes it: the title
has "Broker" or "broker" as a substring. -/
def brokerHitTop (t : Term) : Bool :=
  strContains t.title "Broker" || strContains t.title "broker"

/-- Sub-term identifiable-term predicate as the code writes it: the title
has "Broker" or "29" as a substring, or the term's string representation
has "other3" as a substring. -/
def brokerHitSub (st : Term) : Bool :=
  strContains st.title "Broker" || strContains st.title "29"
    || strContains st.strRepr "other3"

/-- Declarative restatement of the identifiable-terms computation, for the
amended claim C3: over the top-level terms in order, keep each title
passing `brokerHitTop`, followed by the titles of the section sub-terms
passing `brokerHitSub` prefixed by "  └─ "; truncate to 10 entries. -/
def identifiable_spec (terms : List Term) : List String :=
  ((terms.map (fun t =>
    (if brokerHitTop t then [t.title] else [])
    ++ ((t.sect.getD []).filter brokerHitSub).map (fun st => "  └─ " ++ st.title))).flatten).take 10

/-- Concrete outline of the spec's scenario for claim C4: terms
`[{number:"1",title:"Intro",kind:FIELD},
  {number:"2",title:"Broker Info",kind:SECTION,section:{terms:[{title:"Broker Name"}]}}]`. -/
def scenarioOutline : FormOutline :=
  ⟨[Term.mk "1" "Intro" Kind.FIELD none none [],
    Term.mk "2" "Broker Info" Kind.SECTION
      (some [Term.mk "" "Broker Name" Kind.KIND_UNSPECIFIED none none []]) none []]⟩

/-- Concrete outline with a second, empty-titled term (counterexample input
for claim C5). -/
def emptyTitleOutline : FormOutline :=
  ⟨[Term.mk "1" "A" Kind.FIELD none none [],
    Term.mk "2" "" Kind.FIELD none none []]⟩

/-- Concrete outline whose single term has an all-caps title (counterexample
input for claim C3). -/
def capsOutline : FormOutline :=
  ⟨[Term.mk "" "BROKER" Kind.FIELD none none []]⟩

/-- Concrete outline whose single term has a non-empty title and an empty
number (witness input for claim C10). -/
def emptyNumberOutline : FormOutline :=
  ⟨[Term.mk "" "x" Kind.FIELD none none []]⟩

/-- Concrete one-term outline (witness input for claims C2 and C3). -/
def oneTermOutline : FormOutline :=
  ⟨[Term.mk "" "Broker fee" Kind.FIELD none none []]⟩

mutual

theorem Term.beq_refl : ∀ a : Term, Term.beq a a = true
  | .mk n t k s c f => by
    simp [Term.beq, optTermsBeq_refl s, optTermsBeq_refl c]

theorem optTermsBeq_refl : ∀ s : Option (List Term), optTermsBeq s s = true
  | none => rfl
  | some l => by simpa only [optTermsBeq] using termsBeq_refl l

theorem termsBeq_refl : ∀ l : List Term, termsBeq l l = true
  | [] => rfl
  | a :: as => by
    simp only [termsBeq, Bool.and_eq_true]
    exact ⟨Term.beq_refl a, termsBeq_refl as⟩

end

mutual

theorem Term.beq_sound : ∀ a b : Term, Term.beq a b = true → a = b
  | .mk n1 t1 k1 s1 c1 f1, .mk n2 t2 k2 s2 c2 f2 => by
    intro h
    simp only [Term.beq, Bool.and_eq_true, decide_eq_true_eq] at h
    obtain ⟨⟨⟨⟨⟨h1, h2⟩, h3⟩, h4⟩, h5⟩, h6⟩ := h
    rw [h1, h2, h3, h6, optTermsBeq_sound s1 s2 h4, optTermsBeq_sound c1 c2 h5]

theorem optTermsBeq_sound : ∀ a b : Option (List Term), optTermsBeq a b = true → a = b
  | none, none => fun _ => rfl
  | none, some _ => by intro h; simp [optTermsBeq] at h
  | some _, none => by intro h; simp [optTermsBeq] at h
  | some a, some b => by
    intro h
    rw [termsBeq_sound a b h]

theorem termsBeq_sound : ∀ a b : List Term, termsBeq a b = true → a = b
  | [], [] => fun _ => rfl
  | [], _ :: _ => by intro h; simp [termsBeq] at h
  | _ :: _, [] => by intro h; simp [termsBeq] at h
  | a :: as, b :: bs => by
    intro h
    simp only [termsBeq, Bool.and_eq_true] at h
    rw [Term.beq_sound a b h.1, termsBeq_sound as bs h.2]

end

theorem FormOutline.beq_self (a : FormOutline) : FormOutline.beq a a = true :=
  termsBeq_refl a.terms

theorem FormOutline.eq_of_beq {a b : FormOutline} (h : FormOutline.beq a b = true) :
    a = b := by
  cases a; cases b
  simpa using termsBeq_sound _ _ h

theorem FormOutline.beq_of_ne {a b : FormOutline} (h : a ≠ b) :
    FormOutline.beq a b = false := by
  cases hb : FormOutline.beq a b
  · rfl
  · exact absurd (FormOutline.eq_of_beq hb) h

theorem filterMap_if {α β : Type} (p : α → Bool) (g : α → β) (l : List α) :
    l.filterMap (fun x => if p x then some (g x) else none) = (l.filter p).map g := by
  induction l with
  | nil => rfl
  | cons a l ih =>
    by_cases h : p a = true <;>
      simp [List.filterMap_cons, List.filter_cons, h, ih]

theorem identifiableLoop_eq (ts : List Term) :
    identifiableLoop ts = (ts.map (fun t =>
      (if brokerHitTop t then [t.title] else [])
      ++ ((t.sect.getD []).filter brokerHitSub).map (fun st => "  └─ " ++ st.title))).flatten := by
  induction ts with
  | nil => rfl
  | cons t ts ih =>
    simp only [identifiableLoop, List.map_cons, List.flatten_cons, ih, List.append_assoc]
    congr 2
    match h : t.sect with
    | none => rfl
    | some sts =>
      match sts with
      | [] => rfl
      | a :: l =>
        simp only [List.isEmpty_cons, Option.getD_some, if_neg Bool.false_ne_true]
        exact filterMap_if brokerHitSub (fun st => "  └─ " ++ st.title) (a :: l)

theorem sampleTermsLoop_length (s : Nat) (ts : List Term) :
    (sampleTermsLoop s ts).length = (ts.filter (fun t => t.title ≠ "")).length := by
  induction ts generalizing s with
  | nil => rfl
  | cons t ts ih =>
    by_cases h : t.title = "" <;>
      simp [sampleTermsLoop, List.filter_cons, h, ih]

theorem sampleTermsLoop_take (ts : List Term) :
    (sampleTermsLoop 0 (ts.take 5)).take 5 = sampleTermsLoop 0 (ts.take 5) := by
  apply List.take_of_length_le
  calc (sampleTermsLoop 0 (ts.take 5)).length
      = ((ts.take 5).filter (fun t => t.title ≠ "")).length := sampleTermsLoop_length 0 _
    _ ≤ (ts.take 5).length := List.length_filter_le _ _
    _ ≤ 5 := List.length_take_le 5 ts

theorem sampleTermsLoop_mem : ∀ (ts : List Term) (s i : Nat) (h : i < ts.length),
    (ts.get ⟨i, h⟩).title ≠ "" →
    ({ number := if (ts.get ⟨i, h⟩).number ≠ "" then (ts.get ⟨i, h⟩).number
                 else toString (s + i + 1)
       title := (ts.get ⟨i, h⟩).title
       kind := (ts.get ⟨i, h⟩).kind.Name } : SampleTerm) ∈ sampleTermsLoop s ts
  | [], _, i, h => by simp at h
  | t :: ts, s, 0, h => by
    intro ht
    simp only [List.get] at ht ⊢
    simp only [sampleTermsLoop, if_pos ht]
    exact List.mem_append_left _ (List.mem_singleton.mpr rfl)
  | t :: ts, s, i + 1, h => by
    intro ht
    simp only [List.get] at ht ⊢
    have hs : s + (i + 1) + 1 = (s + 1) + i + 1 := by omega
    rw [hs]
    exact List.mem_append_right _
      (sampleTermsLoop_mem ts (s + 1) i (Nat.lt_of_succ_lt_succ h) ht)

theorem lenIfEmpty (l : List Term) : (if l.isEmpty then 0 else l.length) = l.length := by
  cases l <;> simp

/-- Claim C1: for every outline tree A, comparing A against itself with the
outline comparator yields the verdict MATCH, and the `matches` field of the
result is true. -/
theorem compare_outlines_self_match (A : FormOutline) (v : String) :
    (compare_outlines A v A).status = "MATCH" ∧
    (compare_outlines A v A).«matches» = true := by
  simp [compare_outlines, FormOutline.beq_self]

/-- Claim C2: for every pair of distinct outline trees — in particular any
pair differing in some term's title, number, kind, or in the nesting order
of terms at any depth — the comparator yields the verdict NO_MATCH with a
false `matches` field, and the result carries the top-level term count of
each side. -/
theorem compare_outlines_ne_no_match (A B : FormOutline) (v : String) (h : A ≠ B) :
    (compare_outlines A v B).status = "NO_MATCH" ∧
    (compare_outlines A v B).«matches» = false ∧
    (compare_outlines A v B).current_term_count = some A.terms.length ∧
    (compare_outlines A v B).version_term_count = some B.terms.length := by
  have hb := FormOutline.beq_of_ne h
  simp [compare_outlines, hb, lenIfEmpty]

/-- Witness for claim C2 at a concrete distinct pair. -/
theorem compare_outlines_ne_no_match_witness :
    (compare_outlines ⟨[]⟩ "4" oneTermOutline).status = "NO_MATCH" :=
  (compare_outlines_ne_no_match ⟨[]⟩ oneTermOutline "4" (by
    intro hcontra
    simpa [oneTermOutline] using congrArg FormOutline.terms hcontra)).1

/-- Claim C3, counterexample: the keyword heuristic is not case-insensitive.
The title "BROKER" contains the fixed keyword up to case, yet the code's
identifiable-terms list for an outline with that single top-level title is
empty, because the code tests only the literal substrings "Broker" and
"broker". -/
theorem identifiable_not_case_insensitive :
    strContainsCI "BROKER" "Broker" = true ∧
    (get_outline_summary (some capsOutline)).identifiable_terms = some [] := by
  decide

/-- Claim C3, amended: for every non-empty outline, the identifiable-terms
list consists, in order over the top-level terms, of each top-level title
having "Broker" or "broker" as a literal substring, followed by the titles
(prefixed by "  └─ ") of the one-level section sub-terms having "Broker" or
"29" as a substring or "other3" in their string representation — combo
nesting is never scanned — truncated to at most 10 entries. -/
theorem identifiable_terms_code_spec (o : FormOutline) (h : o.terms ≠ []) :
    (get_outline_summary (some o)).identifiable_terms
      = some (identifiable_spec o.terms) := by
  have hne : o.terms.isEmpty = false := by
    cases h' : o.terms
    · exact absurd h' h
    · rfl
  simp only [get_outline_summary, hne, Bool.false_eq_true, if_false]
  rw [identifiableLoop_eq]
  rfl

/-- Witness for the amended claim C3 at a concrete non-empty outline. -/
theorem identifiable_terms_code_spec_witness :
    (get_outline_summary (some oneTermOutline)).identifiable_terms
      = some (identifiable_spec oneTermOutline.terms) :=
  identifiable_terms_code_spec oneTermOutline (by simp [oneTermOutline])

/-- Claim C4, counterexample: on the spec's scenario outline the
identifiable-terms list is not the one-element list ["  └─ Broker Name"] —
the top-level title "Broker Info" also matches the substring "Broker" and
is listed first. -/
theorem scenario_identifiable_not_single :
    (get_outline_summary (some scenarioOutline)).identifiable_terms
      ≠ some ["  └─ Broker Name"] := by
  decide

/-- Claim C4, amended: on the scenario outline the summarizer returns
`term_count = 2` and `identifiable_terms = ["Broker Info", "  └─ Broker Name"]`. -/
theorem scenario_summary_values :
    (get_outline_summary (some scenarioOutline)).term_count = 2 ∧
    (get_outline_summary (some scenarioOutline)).identifiable_terms
      = some ["Broker Info", "  └─ Broker Name"] := by
  decide

/-- Claim C5, counterexample: for an outline with two top-level terms whose
second title is empty, the sample list has length 1, not
`min(5, term_count) = 2`, while the empty-titled term is still counted in
`term_count`. -/
theorem sample_length_ne_min_of_empty_title :
    (get_outline_summary (some emptyTitleOutline)).term_count = 2 ∧
    (get_outline_summary (some emptyTitleOutline)).sample_terms.length
      ≠ min 5 (get_outline_summary (some emptyTitleOutline)).term_count := by
  decide

/-- Claim C5, amended: for every non-empty outline, the sample list length
equals the number of non-empty-titled terms among the first five top-level
terms — hence it is at most `min(5, term_count)`, with equality exactly
when none of those titles is empty — and empty-titled terms are still
counted in `term_count`, which is the full top-level term count. -/
theorem sample_terms_length_spec (o : FormOutline) (h : o.terms ≠ []) :
    (get_outline_summary (some o)).sample_terms.length
      = ((o.terms.take 5).filter (fun t => t.title ≠ "")).length ∧
    (get_outline_summary (some o)).sample_terms.length
      ≤ min 5 (get_outline_summary (some o)).term_count ∧
    (get_outline_summary (some o)).term_count = o.terms.length := by
  have hne : o.terms.isEmpty = false := by
    cases h' : o.terms
    · exact absurd h' h
    · rfl
  simp only [get_outline_summary, hne, Bool.false_eq_true, if_false]
  refine ⟨?_, ?_, ?_⟩
  · rw [sampleTermsLoop_take, sampleTermsLoop_length]
  · rw [sampleTermsLoop_take, sampleTermsLoop_length]
    calc ((o.terms.take 5).filter (fun t => t.title ≠ "")).length
        ≤ (o.terms.take 5).length := List.length_filter_le _ _
      _ = min 5 o.terms.length := List.length_take 5 o.terms
  · trivial

/-- Witness for the amended claim C5 at a concrete outline containing an
empty-titled term. -/
theorem sample_terms_length_spec_witness :
    (get_outline_summary (some emptyTitleOutline)).sample_terms.length
      = ((emptyTitleOutline.terms.take 5).filter (fun t => t.title ≠ "")).length :=
  (sample_terms_length_spec emptyTitleOutline (by simp [emptyTitleOutline])).1

/-- Claim C6: the summarizer reports `is_empty = true` exactly when the
outline is absent or has zero top-level terms; in that case `term_count`
is 0 and the sample list is empty; and for any present outline the
reported `term_count` is the number of top-level terms, regardless of
nesting depth. -/
theorem summary_empty_iff (o : Option FormOutline) :
    ((get_outline_summary o).is_empty = true ↔
      o = none ∨ ∃ f, o = some f ∧ f.terms = []) ∧
    ((get_outline_summary o).is_empty = true →
      (get_outline_summary o).term_count = 0 ∧
      (get_outline_summary o).sample_terms = []) ∧
    (∀ f, o = some f → (get_outline_summary o).term_count = f.terms.length) := by
  match o with
  | none => simp [get_outline_summary]
  | some f =>
    match hf : f.terms with
    | [] => simp [get_outline_summary, hf]
    | t :: ts => simp [get_outline_summary, hf]

/-- Witness for claim C6 at the absent outline. -/
theorem summary_empty_iff_witness :
    (get_outline_summary none).term_count = 0 ∧
    (get_outline_summary none).sample_terms = [] :=
  (summary_empty_iff none).2.1 rfl

/-- Claim C7: loading version "0" always returns an empty outline tree, and
the result does not depend on the filesystem — no file access is attempted
(the source returns the sentinel before building any path). -/
theorem load_version_zero (fs fs' : String → Except String FormOutline) :
    load_outline_version fs "0" = (some ⟨[]⟩, []) ∧
    load_outline_version fs "0" = load_outline_version fs' "0" :=
  ⟨rfl, rfl⟩

/-- Claim C8: for every version other than the sentinel "0" (which never
touches its backing document), when the backing reference document is
missing or malformed — the load-and-parse pipeline raises — the loader
returns the absence marker `none` together with a logged failure message;
by construction no exception escapes. -/
theorem load_failed_version_absent (fs : String → Except String FormOutline)
    (version e : String) (hv : version ≠ "0")
    (hfs : fs (OUTLINE_PATH_TEMPLATE version) = .error e) :
    load_outline_version fs version =
      (none, ["Failed to load outline version " ++ version ++ ": " ++ e]) := by
  simp [load_outline_version, hv, hfs]

/-- Witness for claim C8 at a concrete failing filesystem. -/
theorem load_failed_version_absent_witness :
    load_outline_version (fun _ => .error "missing") "5" =
      (none, ["Failed to load outline version " ++ "5" ++ ": " ++ "missing"]) :=
  load_failed_version_absent (fun _ => .error "missing") "5" "missing"
    (by decide) rfl

/-- Claim C9: the series scan equals, partition by partition, the in-order
`filterMap` of the per-row outcome over the rows returned by the backing
query: a row whose processing fails contributes one log entry and appears
in neither partition, every other row is still processed, and both output
partitions (and the log) preserve the query's relative row order. -/
theorem scan_forms_partition (svc : ScanServices) (dfid : String)
    (rows : List FormRow) :
    scan_forms svc dfid rows =
      (rows.filterMap (fun r => pickWith (process_row svc dfid r)),
       rows.filterMap (fun r => pickWithout (process_row svc dfid r)),
       rows.filterMap (fun r => pickLog (process_row svc dfid r))) := by
  induction rows with
  | nil => rfl
  | cons r rows ih =>
    simp only [scan_forms, ih, List.filterMap_cons]
    cases hr : process_row svc dfid r <;>
      simp [pickWith, pickWithout, pickLog, hr]

/-- Claim C10: a sampled term whose `number` field is empty is reported
with its 1-based position among the top-level terms substituted as its
number, while a term with a non-empty `number` is reported with that number
unchanged (stated for any position among the first five top-level terms
with a non-empty title, i.e. any sampled term). -/
theorem sample_number_defaults_to_position (o : FormOutline) (i : Nat)
    (h : i < (o.terms.take 5).length)
    (ht : ((o.terms.take 5).get ⟨i, h⟩).title ≠ "") :
    ({ number := if ((o.terms.take 5).get ⟨i, h⟩).number ≠ ""
                 then ((o.terms.take 5).get ⟨i, h⟩).number else toString (i + 1)
       title := ((o.terms.take 5).get ⟨i, h⟩).title
       kind := ((o.terms.take 5).get ⟨i, h⟩).kind.Name } : SampleTerm) ∈
      (get_outline_summary (some o)).sample_terms := by
  have hne : o.terms.isEmpty = false := by
    cases h' : o.terms
    · rw [h'] at h; simp at h
    · rfl
  simp only [get_outline_summary, hne, Bool.false_eq_true, if_false]
  rw [sampleTermsLoop_take]
  have hmem := sampleTermsLoop_mem (o.terms.take 5) 0 i h ht
  simpa using hmem

/-- Witness for claim C10: a term with empty `number` and title "x" at
position 0 is reported with number "1". -/
theorem sample_number_defaults_to_position_witness :
    ({ number := "1", title := "x", kind := "FIELD" } : SampleTerm) ∈
      (get_outline_summary (some emptyNumberOutline)).sample_terms := by
  exact sample_number_defaults_to_position emptyNumberOutline 0 (by decide) (by decide)
